import Mathlib

/-!
Verification of the delivery-dispatch core of the EntregaFast application.

The definitions below are a shallow embedding of the TypeScript source:
the delivery data model and the status-update / creation operations of
`App.tsx`, the courier offer, accept and progress logic and the synthetic
route fallback of `components/CourierView.tsx`, and the geocoding cascade
and tracking simulation of `CustomerView`.  Coordinates are modelled as
rationals, optional numeric fields as `Option ℚ`, and JavaScript
truthiness of numbers (`0` is falsy) is made explicit in `jsCoordPair`.
External network services (geocoding lookups) are modelled as an oracle
parameter `String → Option GeoHit`.
-/

/-- Delivery lifecycle states, from `types.ts` (`enum DeliveryStatus`). -/
inductive DeliveryStatus where
  | PENDING
  | ACCEPTED
  | PICKED_UP
  | ARRIVED_DESTINATION
  | DELIVERED
  deriving DecidableEq, Repr

/-- Payment method, from `types.ts` (`type PaymentMethod`). -/
inductive PaymentMethod where
  | PIX
  | CASH
  deriving DecidableEq, Repr

/-- Who pays for the delivery, from `types.ts` (`type PayerType`). -/
inductive PayerType where
  | SENDER
  | RECIPIENT
  deriving DecidableEq, Repr

/-- A delivery request, from `types.ts` (`interface DeliveryRequest`).
The optional coordinate fields are `Option ℚ` (absent = `undefined`). -/
structure DeliveryRequest where
  id : String
  itemDescription : String
  pickupAddress : String
  dropoffAddress : String
  status : DeliveryStatus
  createdAt : Nat
  recipientName : String
  recipientPhone : String
  paymentMethod : PaymentMethod
  payer : PayerType
  pickupLat : Option ℚ := none
  pickupLng : Option ℚ := none
  dropoffLat : Option ℚ := none
  dropoffLng : Option ℚ := none
  deriving DecidableEq, Repr

/-- JavaScript truthiness check of the pattern `lat && lng ? [lat, lng] : fallback`
used throughout the source on optional numeric coordinates: a coordinate
pair is usable only when both components are present and nonzero
(in JS both `undefined` and `0` are falsy). -/
def jsCoordPair (la ln : Option ℚ) : Option (ℚ × ℚ) :=
  match la, ln with
  | some a, some b => if a ≠ 0 ∧ b ≠ 0 then some (a, b) else none
  | _, _ => none

/-- `handleUpdateStatus` from `App.tsx` lines 71-75: map over the request
list, replacing the status of every request whose id matches; no check of
the previous status is performed and no error is ever reported. -/
def handleUpdateStatus (requests : List DeliveryRequest) (i : String)
    (st : DeliveryStatus) : List DeliveryRequest :=
  requests.map fun req => if req.id = i then { req with status := st } else req

/-- The caller-supplied part of a new request
(`Omit<DeliveryRequest, 'id' | 'createdAt' | 'status'>` in `App.tsx`). -/
structure NewRequestData where
  itemDescription : String
  pickupAddress : String
  dropoffAddress : String
  recipientName : String
  recipientPhone : String
  paymentMethod : PaymentMethod
  payer : PayerType
  pickupLat : Option ℚ := none
  pickupLng : Option ℚ := none
  dropoffLat : Option ℚ := none
  dropoffLng : Option ℚ := none
  deriving DecidableEq, Repr

/-- The request object built by `handleCreateRequest` in `App.tsx`
(`{...newRequest, id, createdAt: Date.now(), status: PENDING}`); the random
id and the clock reading are parameters here. -/
def buildRequest (d : NewRequestData) (i : String) (now : Nat) : DeliveryRequest :=
  { id := i
    itemDescription := d.itemDescription
    pickupAddress := d.pickupAddress
    dropoffAddress := d.dropoffAddress
    status := DeliveryStatus.PENDING
    createdAt := now
    recipientName := d.recipientName
    recipientPhone := d.recipientPhone
    paymentMethod := d.paymentMethod
    payer := d.payer
    pickupLat := d.pickupLat
    pickupLng := d.pickupLng
    dropoffLat := d.dropoffLat
    dropoffLng := d.dropoffLng }

/-- `handleCreateRequest` from `App.tsx` lines 61-69: the new request is
prepended to the list (`setRequests(prev => [request, ...prev])`). -/
def handleCreateRequest (prev : List DeliveryRequest) (d : NewRequestData)
    (i : String) (now : Nat) : List DeliveryRequest :=
  buildRequest d i now :: prev

/-- `getCoordinates` from `CourierView.tsx` lines 32-44: deterministic
pseudo-coordinate from the id hash (sum of character codes), spread around
the given center.  The `getSafeLat`/`getSafeLng` NaN guards of the source
are vacuous over rationals. -/
def getCoordinates (i : String) (centerLat centerLng : ℚ) : ℚ × ℚ :=
  let safeId := if i = "" then "default" else i
  let hash : ℕ := (safeId.data.map Char.toNat).sum
  let latOffset : ℚ := (((hash % 100 : ℕ) : ℚ) - 50) / 2500
  let lngOffset : ℚ := ((((hash * 13) % 100 : ℕ) : ℚ) - 50) / 2500
  (centerLat + latOffset, centerLng + lngOffset)

/-- `generateSmartRouteFallback` from `CourierView.tsx` lines 47-58: the
synthetic Manhattan (L-shaped) route used when the routing service fails. -/
def generateSmartRouteFallback (startC endC : ℚ × ℚ) : List (ℚ × ℚ) :=
  let startLat := startC.1
  let startLng := startC.2
  let endLat := endC.1
  let endLng := endC.2
  let goLatFirst := |startLat - endLat| > |startLng - endLng|
  if goLatFirst then
    [startC, (endLat, startLng), endC]
  else
    [startC, (startLat, endLng), endC]

/-- The per-tick progress increment of the tracking simulation in
`CustomerView` (`progress += 0.005`). -/
def simStep : ℚ := 1 / 200

/-- One tick of the `CustomerView` tracking simulation interval:
`progress += 0.005; if (progress > 1) { if (status === ARRIVED_DESTINATION)
progress = 1; else progress = 0; }`. -/
def simTick (status : DeliveryStatus) (progress : ℚ) : ℚ :=
  let p := progress + simStep
  if p > 1 then
    if status = DeliveryStatus.ARRIVED_DESTINATION then 1 else 0
  else p

/-- The linear interpolation of the simulated courier position in
`CustomerView`: `cur = start + (end - start) * progress`, componentwise. -/
def interpolate (startPos endPos : ℚ × ℚ) (progress : ℚ) : ℚ × ℚ :=
  (startPos.1 + (endPos.1 - startPos.1) * progress,
   startPos.2 + (endPos.2 - startPos.2) * progress)

/-- C4: for every origin and destination, the synthetic fallback route is
exactly `[origin, corner, destination]`, where the corner is
`(destination.lat, origin.lng)` when the absolute latitude delta is
strictly larger than the absolute longitude delta and
`(origin.lat, destination.lng)` otherwise; in particular it has three
points, is never empty, and starts at the origin and ends at the
destination. -/
theorem fallback_route_shape (s e : ℚ × ℚ) :
    generateSmartRouteFallback s e
      = [s, if |s.1 - e.1| > |s.2 - e.2| then (e.1, s.2) else (s.1, e.2), e]
    ∧ (generateSmartRouteFallback s e).length = 3
    ∧ (generateSmartRouteFallback s e).head? = some s
    ∧ (generateSmartRouteFallback s e).getLast? = some e := by
  unfold generateSmartRouteFallback
  by_cases h : |s.1 - e.1| > |s.2 - e.2| <;>
    simp [h, List.getLast?]

/-- C8: each simulation tick adds the fixed step to the progress counter;
when the result exceeds 1 it resets to 0 unless the tracked status is
ARRIVED_DESTINATION, in which case it clamps at 1; the interpolated
position is always `start + (end - start) * progress` componentwise, so at
progress 1 the simulated position holds at the leg's end point. -/
theorem sim_tick_spec (s : DeliveryStatus) (p : ℚ) (a b : ℚ × ℚ) :
    (p + simStep ≤ 1 → simTick s p = p + simStep)
    ∧ (1 < p + simStep → s ≠ DeliveryStatus.ARRIVED_DESTINATION → simTick s p = 0)
    ∧ (1 < p + simStep → simTick DeliveryStatus.ARRIVED_DESTINATION p = 1)
    ∧ interpolate a b p
        = (a.1 + (b.1 - a.1) * p, a.2 + (b.2 - a.2) * p)
    ∧ interpolate a b 1 = b := by
  refine ⟨?_, ?_, ?_, rfl, ?_⟩
  · intro h
    simp only [simTick]
    rw [if_neg (by linarith)]
  · intro h hs
    simp only [simTick]
    rw [if_pos (by linarith), if_neg hs]
  · intro h
    simp only [simTick]
    rw [if_pos (by linarith)]
    simp
  · simp only [interpolate]
    have h1 : a.1 + (b.1 - a.1) * 1 = b.1 := by ring
    have h2 : a.2 + (b.2 - a.2) * 1 = b.2 := by ring
    rw [h1, h2]

/-- Witness for C8 at concrete inputs: from progress 1 the tick wraps to 0
for a PICKED_UP leg and clamps at 1 for an ARRIVED_DESTINATION leg, and
the interpolation at progress 1 reaches the end point. -/
theorem sim_tick_spec_witness :
    simTick DeliveryStatus.PICKED_UP 1 = 0
    ∧ simTick DeliveryStatus.ARRIVED_DESTINATION 1 = 1
    ∧ interpolate (0, 0) (10, 10) 1 = (10, 10) := by
  have h := sim_tick_spec DeliveryStatus.PICKED_UP 1 ((0 : ℚ), (0 : ℚ)) (10, 10)
  refine ⟨h.2.1 (by norm_num [simStep]) (by decide), ?_, h.2.2.2.2⟩
  exact (sim_tick_spec DeliveryStatus.ARRIVED_DESTINATION 1 ((0 : ℚ), (0 : ℚ))
    ((0 : ℚ), (0 : ℚ))).2.2.1 (by norm_num [simStep])

/-- The direct successor in the linear lifecycle
PENDING, ACCEPTED, PICKED_UP, ARRIVED_DESTINATION, DELIVERED
described by the specification's transition table. -/
def nextStatus : DeliveryStatus → Option DeliveryStatus
  | DeliveryStatus.PENDING => some DeliveryStatus.ACCEPTED
  | DeliveryStatus.ACCEPTED => some DeliveryStatus.PICKED_UP
  | DeliveryStatus.PICKED_UP => some DeliveryStatus.ARRIVED_DESTINATION
  | DeliveryStatus.ARRIVED_DESTINATION => some DeliveryStatus.DELIVERED
  | DeliveryStatus.DELIVERED => none

/-- `handleProgressAction` from `CourierView.tsx` lines 345-364: the switch
on the active delivery's status decides which status update is requested
through `onUpdateStatus`; nothing is requested when there is no active
delivery or its status is PENDING or DELIVERED (no `case` for them).
The result is the `(id, newStatus)` update issued, if any. -/
def handleProgressAction (activeDelivery : Option DeliveryRequest) :
    Option (String × DeliveryStatus) :=
  match activeDelivery with
  | none => none
  | some d =>
    match d.status with
    | DeliveryStatus.ACCEPTED => some (d.id, DeliveryStatus.PICKED_UP)
    | DeliveryStatus.PICKED_UP => some (d.id, DeliveryStatus.ARRIVED_DESTINATION)
    | DeliveryStatus.ARRIVED_DESTINATION => some (d.id, DeliveryStatus.DELIVERED)
    | _ => none

/-- `handleAcceptOffer` from `CourierView.tsx` lines 307-313: if an offer
is present, request the ACCEPTED status for it (with no check of its
current status) and clear the offer.  The result is the update issued
(if any) paired with the offer state after the call. -/
def handleAcceptOffer (incomingOffer : Option DeliveryRequest) :
    Option (String × DeliveryStatus) × Option DeliveryRequest :=
  match incomingOffer with
  | some o => (some (o.id, DeliveryStatus.ACCEPTED), none)
  | none => (none, none)

/-- The offer predicate of the offer-detection effect in `CourierView.tsx`
lines 157-160: PENDING and not in the courier's ignored set. -/
def offerMatch (ignoredOffers : List String) (r : DeliveryRequest) : Bool :=
  decide (r.status = DeliveryStatus.PENDING) && !(ignoredOffers.contains r.id)

/-- The active-delivery detection of `CourierView.tsx` lines 136-140: the
first request whose status is ACCEPTED, PICKED_UP or ARRIVED_DESTINATION. -/
def findActiveDelivery (requests : List DeliveryRequest) : Option DeliveryRequest :=
  requests.find? fun r =>
    decide (r.status = DeliveryStatus.ACCEPTED ∨ r.status = DeliveryStatus.PICKED_UP
      ∨ r.status = DeliveryStatus.ARRIVED_DESTINATION)

/-- The offer-detection effect of `CourierView.tsx` lines 151-193: no offer
while offline or busy; otherwise `requests.find(...)` — the first request
in list order that is PENDING and not ignored. -/
def findOffer (requests : List DeliveryRequest) (isOnline : Bool)
    (activeDelivery : Option DeliveryRequest) (ignoredOffers : List String) :
    Option DeliveryRequest :=
  if !isOnline || activeDelivery.isSome then none
  else requests.find? (offerMatch ignoredOffers)

/-- A delivered request used as a concrete input below. -/
def exReqDelivered : DeliveryRequest :=
  { id := "r1", itemDescription := "Docs", pickupAddress := "A", dropoffAddress := "B"
    status := DeliveryStatus.DELIVERED, createdAt := 5, recipientName := "M"
    recipientPhone := "9", paymentMethod := PaymentMethod.PIX, payer := PayerType.SENDER }

/-- An accepted request used as a concrete input below. -/
def exReqAccepted : DeliveryRequest :=
  { exReqDelivered with id := "r2", status := DeliveryStatus.ACCEPTED }

/-- A pending request used as a concrete input below. -/
def exReqPending : DeliveryRequest :=
  { exReqDelivered with id := "r3", status := DeliveryStatus.PENDING }

/-- C1, counterexample: the status-update operation performs no
predecessor check and reports no error.  On a request whose status is
DELIVERED, requesting the status PENDING — a transition that is not along
the linear sequence — succeeds and changes the stored status, so the
attempted transition neither fails with `InvalidTransition` (no such
error exists in the code) nor leaves the status unchanged. -/
theorem update_status_no_validation :
    exReqDelivered.status = DeliveryStatus.DELIVERED
    ∧ (handleUpdateStatus [exReqDelivered] "r1" DeliveryStatus.PENDING).map
        DeliveryRequest.status = [DeliveryStatus.PENDING] :=
  ⟨rfl, rfl⟩

/-- C1, amended: the low-level update `handleUpdateStatus` applies any
requested status unconditionally (no `InvalidTransition` error exists);
linear sequencing is enforced only at the call site: the courier progress
handler, from an active delivery in status `s`, issues exactly the update
to the direct successor of `s` in
PENDING→ACCEPTED→PICKED_UP→ARRIVED_DESTINATION→DELIVERED, and issues
nothing when there is no active delivery or its status is PENDING or
DELIVERED. -/
theorem progress_action_linear (d : DeliveryRequest) (s : DeliveryStatus) :
    (∀ upd, handleProgressAction (some d) = some upd →
        upd.1 = d.id ∧ nextStatus d.status = some upd.2)
    ∧ (d.status = DeliveryStatus.PENDING ∨ d.status = DeliveryStatus.DELIVERED →
        handleProgressAction (some d) = none)
    ∧ handleProgressAction none = none
    ∧ handleUpdateStatus [d] d.id s = [{ d with status := s }] := by
  refine ⟨?_, ?_, rfl, by simp [handleUpdateStatus]⟩
  · intro upd h
    cases hs : d.status <;> simp only [handleProgressAction, hs] at h
    · exact absurd h (by simp)
    · cases h; exact ⟨rfl, by simp [nextStatus, hs]⟩
    · cases h; exact ⟨rfl, by simp [nextStatus, hs]⟩
    · cases h; exact ⟨rfl, by simp [nextStatus, hs]⟩
    · exact absurd h (by simp)
  · rintro (hs | hs) <;> simp [handleProgressAction, hs]

/-- Witness for C1 at concrete inputs: from an ACCEPTED active delivery
the progress handler advances to its direct successor PICKED_UP, and from
a PENDING request it issues no update. -/
theorem progress_action_linear_witness :
    nextStatus DeliveryStatus.ACCEPTED = some DeliveryStatus.PICKED_UP
    ∧ handleProgressAction (some exReqPending) = none := by
  constructor
  · exact ((progress_action_linear exReqAccepted DeliveryStatus.PENDING).1
      (exReqAccepted.id, DeliveryStatus.PICKED_UP) rfl).2
  · exact (progress_action_linear exReqPending DeliveryStatus.PENDING).2.1 (Or.inl rfl)

/-- C2, counterexample: accepting an offer whose request is no longer
PENDING does not return `AlreadyTaken` (no such error exists in the code)
and does perform a state change: on a DELIVERED request the accept handler
still issues the ACCEPTED update and the update commits. -/
theorem accept_no_already_taken :
    exReqDelivered.status = DeliveryStatus.DELIVERED
    ∧ (handleAcceptOffer (some exReqDelivered)).1
        = some (exReqDelivered.id, DeliveryStatus.ACCEPTED)
    ∧ (handleUpdateStatus [exReqDelivered] exReqDelivered.id
        DeliveryStatus.ACCEPTED).map DeliveryRequest.status
        = [DeliveryStatus.ACCEPTED] :=
  ⟨rfl, rfl, rfl⟩

/-- C2, amended: the accept handler performs no status check and no
`AlreadyTaken` error exists; it unconditionally issues the ACCEPTED update
for the current offer and clears the offer, and is a no-op when no offer
is present.  Any offer installed by the offer-detection logic has status
PENDING (and is not ignored) at detection time, so accepting a
still-current offer performs the PENDING→ACCEPTED transition. -/
theorem accept_offer_behavior (requests : List DeliveryRequest) (online : Bool)
    (act : Option DeliveryRequest) (ign : List String) (o : DeliveryRequest) :
    (findOffer requests online act ign = some o →
        o.status = DeliveryStatus.PENDING ∧ ign.contains o.id = false)
    ∧ handleAcceptOffer (some o) = (some (o.id, DeliveryStatus.ACCEPTED), none)
    ∧ handleAcceptOffer none = (none, none)
    ∧ handleUpdateStatus [o] o.id DeliveryStatus.ACCEPTED
        = [{ o with status := DeliveryStatus.ACCEPTED }] := by
  refine ⟨?_, rfl, rfl, by simp [handleUpdateStatus]⟩
  intro h
  unfold findOffer at h
  split at h
  · exact absurd h (by simp)
  · have hm := List.find?_some h
    simpa [offerMatch, Bool.and_eq_true, decide_eq_true_eq,
      Bool.not_eq_true'] using hm

/-- Witness for C2 at a concrete input: the offer detector selects a
PENDING request and accepting it issues the ACCEPTED update for it. -/
theorem accept_offer_behavior_witness :
    exReqPending.status = DeliveryStatus.PENDING
    ∧ (handleAcceptOffer (some exReqPending)).1
        = some (exReqPending.id, DeliveryStatus.ACCEPTED) := by
  have h := accept_offer_behavior [exReqPending] true none [] exReqPending
  exact ⟨(h.1 rfl).1, by rw [h.2.1]⟩

/-- `find?` returns the head of the filtered list: the first element, in
list order, satisfying the predicate. -/
theorem find_eq_head_filter {α : Type} (p : α → Bool) :
    ∀ l : List α, l.find? p = (l.filter p).head?
  | [] => rfl
  | a :: l => by
    cases h : p a
    · rw [List.find?_cons_of_neg _ (by simp [h]),
        List.filter_cons_of_neg (by simp [h])]
      exact find_eq_head_filter p l
    · rw [List.find?_cons_of_pos _ (by simp [h]),
        List.filter_cons_of_pos (by simp [h]), List.head?_cons]

/-- C3, counterexample: request creation prepends, and the offer scan
takes the first match in list order, so with two PENDING never-ignored
requests the selected offer is the most recently created one, not the
first in ascending creation order. -/
def exOldPending : DeliveryRequest :=
  { id := "old", itemDescription := "Old", pickupAddress := "A", dropoffAddress := "B"
    status := DeliveryStatus.PENDING, createdAt := 10, recipientName := "M"
    recipientPhone := "9", paymentMethod := PaymentMethod.PIX, payer := PayerType.SENDER }

/-- The caller-supplied data of a second, later request. -/
def exNewData : NewRequestData :=
  { itemDescription := "New", pickupAddress := "C", dropoffAddress := "D"
    recipientName := "N", recipientPhone := "8", paymentMethod := PaymentMethod.CASH
    payer := PayerType.RECIPIENT }

/-- The request list after creating the second request at time 20 on top
of the pending request created at time 10. -/
def exListAfterCreate : List DeliveryRequest :=
  handleCreateRequest [exOldPending] exNewData "new" 20

/-- C3, counterexample: both requests are PENDING and not ignored, the
older one was created at 10 and the newer one at 20, yet the offer
selected for an online, idle courier is the newer request — not the first
in ascending creation order. -/
theorem offer_not_oldest_first :
    offerMatch [] exOldPending = true
    ∧ findOffer exListAfterCreate true none []
        = some (buildRequest exNewData "new" 20)
    ∧ (buildRequest exNewData "new" 20).createdAt = 20
    ∧ exOldPending.createdAt = 10
    ∧ (buildRequest exNewData "new" 20).id ≠ exOldPending.id :=
  ⟨rfl, rfl, rfl, rfl, by decide⟩

/-- C3, amended: when the courier is online and has no active delivery,
the offer selected is the first request in list order whose status is
PENDING and whose id is not in the courier's ignored set; because request
creation prepends to the list, list order is most-recently-created first,
so the scan favours the newest matching request rather than the oldest.
No offer is produced while offline or busy, and at most one offer is
current at a time (the detection yields at most one request). -/
theorem offer_selection_order (reqs : List DeliveryRequest) (ign : List String)
    (a : DeliveryRequest) (online : Bool) (prev : List DeliveryRequest)
    (d : NewRequestData) (i : String) (now : Nat) :
    findOffer reqs true none ign = (reqs.filter (offerMatch ign)).head?
    ∧ findOffer reqs false none ign = none
    ∧ findOffer reqs online (some a) ign = none
    ∧ handleCreateRequest prev d i now = buildRequest d i now :: prev
    ∧ (buildRequest d i now).status = DeliveryStatus.PENDING
    ∧ (buildRequest d i now).createdAt = now := by
  refine ⟨?_, rfl, ?_, rfl, rfl, rfl⟩
  · unfold findOffer
    rw [if_neg (by decide)]
    exact find_eq_head_filter (offerMatch ign) reqs
  · unfold findOffer
    rw [if_pos (by simp)]

/-- C9: the status-update operation preserves the length of the request
list; position by position, a request whose id matches gets exactly its
status field replaced (all other fields kept) and a request whose id does
not match is returned unchanged; when no request has the given id the
whole list is returned identical, and in no case is an error reported
(the operation is total). -/
theorem update_status_frame (reqs : List DeliveryRequest) (i : String)
    (st : DeliveryStatus) :
    (handleUpdateStatus reqs i st).length = reqs.length
    ∧ (∀ k : ℕ, (handleUpdateStatus reqs i st)[k]?
        = (reqs[k]?).map fun r => if r.id = i then { r with status := st } else r)
    ∧ ((∀ r ∈ reqs, r.id ≠ i) → handleUpdateStatus reqs i st = reqs) := by
  refine ⟨by simp only [handleUpdateStatus, List.length_map],
    fun k => by simp only [handleUpdateStatus, List.getElem?_map], ?_⟩
  intro h
  unfold handleUpdateStatus
  have hcong : ∀ r ∈ reqs,
      (if r.id = i then { r with status := st } else r) = id r := by
    intro r hr
    simp [h r hr]
  rw [List.map_congr_left hcong, List.map_id]

/-- Witness for C9 at a concrete input: updating an id that occurs nowhere
in the list returns the list unchanged and reports nothing. -/
theorem update_status_frame_witness :
    handleUpdateStatus [exOldPending] "absent" DeliveryStatus.DELIVERED
      = [exOldPending] := by
  refine (update_status_frame [exOldPending] "absent" DeliveryStatus.DELIVERED).2.2 ?_
  intro r hr
  rw [List.mem_singleton] at hr
  subst hr
  decide

/-- Precision tier of a geocoding result, from `geocodeAddress` in
`CustomerView` (most to least specific). -/
inductive Precision where
  | exact
  | street
  | neighborhood
  | city
  deriving DecidableEq, Repr

/-- A raw hit returned by the external geocoding service (Nominatim),
already parsed to numbers. -/
structure GeoHit where
  lat : ℚ
  lng : ℚ
  display_name : String
  deriving DecidableEq, Repr

/-- The value returned by `geocodeAddress`: coordinate, display string and
precision tier. -/
structure GeocodeResult where
  lat : ℚ
  lng : ℚ
  display_name : String
  precision : Precision
  deriving DecidableEq, Repr

/-- Whitespace for the JavaScript `String.prototype.trim` model (space,
tab, line feed, carriage return). -/
def jsWhitespace (c : Char) : Bool :=
  c = ' ' || c = '\t' || c = '\n' || c = '\r'

/-- Model of the JavaScript `trim()` used on the four address fields:
drop whitespace from both ends of the string. -/
def jsTrim (s : String) : String :=
  ⟨((s.data.dropWhile jsWhitespace).reverse.dropWhile jsWhitespace).reverse⟩

/-- Tier-1 query string of `geocodeAddress`: street, number, city. -/
def geoQuery1 (cs cn cc : String) : String :=
  cs ++ ", " ++ cn ++ ", " ++ cc ++ ", Rio Grande do Sul, Brasil"

/-- Tier-2 query string of `geocodeAddress`: street, city. -/
def geoQuery2 (cs cc : String) : String :=
  cs ++ ", " ++ cc ++ ", Rio Grande do Sul, Brasil"

/-- Tier-3 query string of `geocodeAddress`: neighborhood, city. -/
def geoQuery3 (ch cc : String) : String :=
  ch ++ ", " ++ cc ++ ", Rio Grande do Sul, Brasil"

/-- Tier-4 query string of `geocodeAddress`: city alone. -/
def geoQuery4 (cc : String) : String :=
  cc ++ ", Rio Grande do Sul, Brasil"

/-- One `if (...) { const result = await doFetch(query); if (result)
return ...; }` block of `geocodeAddress`: when the guard holds, issue the
query; a hit ends the cascade with the given precision, a miss falls
through to the rest.  The second component records the queries issued, in
order. -/
def geoStep (lookup : String → Option GeoHit) (cond : Bool) (q : String)
    (p : Precision) (rest : List String → Option GeocodeResult × List String)
    (issued : List String) : Option GeocodeResult × List String :=
  if cond then
    match lookup q with
    | some r => (some ⟨r.lat, r.lng, r.display_name, p⟩, issued ++ [q])
    | none => rest (issued ++ [q])
  else rest issued

/-- `geocodeAddress` from `CustomerView` lines 73-120: trim the four
fields, then try the four query tiers in order (exact, street,
neighborhood, city), each guarded by the presence of its trimmed fields;
the first hit wins; a miss or an absent field falls through; `null` after
all four.  The external fetch is the `lookup` oracle; the returned list
records every query issued, in order. -/
def geocodeAddress (lookup : String → Option GeoHit)
    (street number neighborhood city : String) :
    Option GeocodeResult × List String :=
  let cleanStreet := (jsTrim street)
  let cleanNum := (jsTrim number)
  let cleanCity := (jsTrim city)
  let cleanNeighborhood := (jsTrim neighborhood)
  geoStep lookup (!cleanStreet.isEmpty && !cleanNum.isEmpty && !cleanCity.isEmpty)
      (geoQuery1 cleanStreet cleanNum cleanCity) Precision.exact
    (geoStep lookup (!cleanStreet.isEmpty && !cleanCity.isEmpty)
        (geoQuery2 cleanStreet cleanCity) Precision.street
      (geoStep lookup (!cleanNeighborhood.isEmpty && !cleanCity.isEmpty)
          (geoQuery3 cleanNeighborhood cleanCity) Precision.neighborhood
        (geoStep lookup (!cleanCity.isEmpty) (geoQuery4 cleanCity) Precision.city
          (fun issued => (none, issued)))))
    []

/-- Specification-side cascade: given the ordered list of applicable
(query, precision) tiers, issue each query in order and stop at the first
hit; the spec says the four tiers are attempted in strict order and the
first non-empty result wins. -/
def geoCascade (lookup : String → Option GeoHit) :
    List (String × Precision) → List String → Option GeocodeResult × List String
  | [], issued => (none, issued)
  | (q, p) :: rest, issued =>
    match lookup q with
    | some r => (some ⟨r.lat, r.lng, r.display_name, p⟩, issued ++ [q])
    | none => geoCascade lookup rest (issued ++ [q])

/-- Specification-side ordered list of applicable tiers: exact, street,
neighborhood, city, each present only when its required trimmed fields
are non-empty. -/
def geoTiers (street number neighborhood city : String) :
    List (String × Precision) :=
  let cs := (jsTrim street)
  let cn := (jsTrim number)
  let cc := (jsTrim city)
  let ch := (jsTrim neighborhood)
  (if !cs.isEmpty && !cn.isEmpty && !cc.isEmpty
      then [(geoQuery1 cs cn cc, Precision.exact)] else [])
    ++ ((if !cs.isEmpty && !cc.isEmpty
        then [(geoQuery2 cs cc, Precision.street)] else [])
      ++ ((if !ch.isEmpty && !cc.isEmpty
          then [(geoQuery3 ch cc, Precision.neighborhood)] else [])
        ++ ((if !cc.isEmpty then [(geoQuery4 cc, Precision.city)] else []) ++ [])))

/-- One guarded attempt agrees with the cascade over the corresponding
conditional tier, whatever queries were already issued. -/
theorem geoStep_cascade (lookup : String → Option GeoHit) (cond : Bool)
    (q : String) (p : Precision)
    (rest : List String → Option GeocodeResult × List String)
    (tiersRest : List (String × Precision))
    (hrest : ∀ issued, rest issued = geoCascade lookup tiersRest issued) :
    ∀ issued, geoStep lookup cond q p rest issued
      = geoCascade lookup ((if cond then [(q, p)] else []) ++ tiersRest) issued := by
  intro issued
  cases cond
  · simp [geoStep, hrest]
  · cases hq : lookup q <;> simp [geoStep, geoCascade, hq, hrest]

/-- The source cascade equals the specification cascade over the ordered
applicable tiers. -/
theorem geocode_equals_cascade (lookup : String → Option GeoHit)
    (street number neighborhood city : String) :
    geocodeAddress lookup street number neighborhood city
      = geoCascade lookup (geoTiers street number neighborhood city) [] := by
  have h4 := geoStep_cascade lookup (!(jsTrim city).isEmpty) (geoQuery4 (jsTrim city))
    Precision.city (fun issued => ((none : Option GeocodeResult), issued)) []
    (fun _ => rfl)
  have h3 := geoStep_cascade lookup
    (!(jsTrim neighborhood).isEmpty && !(jsTrim city).isEmpty)
    (geoQuery3 (jsTrim neighborhood) (jsTrim city)) Precision.neighborhood _ _ h4
  have h2 := geoStep_cascade lookup (!(jsTrim street).isEmpty && !(jsTrim city).isEmpty)
    (geoQuery2 (jsTrim street) (jsTrim city)) Precision.street _ _ h3
  have h1 := geoStep_cascade lookup
    (!(jsTrim street).isEmpty && !(jsTrim number).isEmpty && !(jsTrim city).isEmpty)
    (geoQuery1 (jsTrim street) (jsTrim number) (jsTrim city)) Precision.exact _ _ h2
  exact h1 []

/-- C5: the geocoder is exactly the strict-order cascade over the
applicable tiers (first non-empty result wins, precisions exact, street,
neighborhood, city in that order); when street, number and city are all
present, the exact-tier query is the first tier attempted, and if the
lookup answers it, the result carries precision `exact` and no further
query is issued. -/
theorem geocode_tier_order (lookup : String → Option GeoHit)
    (street number neighborhood city : String) :
    geocodeAddress lookup street number neighborhood city
      = geoCascade lookup (geoTiers street number neighborhood city) []
    ∧ ((jsTrim street).isEmpty = false → (jsTrim number).isEmpty = false →
        (jsTrim city).isEmpty = false →
        (geoTiers street number neighborhood city).head?
          = some (geoQuery1 (jsTrim street) (jsTrim number) (jsTrim city), Precision.exact)
        ∧ ∀ r, lookup (geoQuery1 (jsTrim street) (jsTrim number) (jsTrim city)) = some r →
            geocodeAddress lookup street number neighborhood city
              = (some ⟨r.lat, r.lng, r.display_name, Precision.exact⟩,
                 [geoQuery1 (jsTrim street) (jsTrim number) (jsTrim city)])) := by
  refine ⟨geocode_equals_cascade lookup street number neighborhood city, ?_⟩
  intro hs hn hc
  constructor
  · simp [geoTiers, hs, hn, hc]
  · intro r hr
    simp [geocodeAddress, geoStep, hs, hn, hc, hr]

/-- A lookup oracle that answers only the exact-tier query for
street "Rua X", number "100", city "Santa Maria". -/
def exLookupHit : String → Option GeoHit :=
  fun q => if q = geoQuery1 "Rua X" "100" "Santa Maria"
    then some { lat := 1, lng := 2, display_name := "ok" } else none

/-- Witness for C5 at concrete inputs: with street, number and city all
present and the exact-tier query answered, the geocoder returns that hit
with precision `exact` and issues exactly that one query. -/
theorem geocode_tier_order_witness :
    geocodeAddress exLookupHit "Rua X" "100" "Centro" "Santa Maria"
      = (some { lat := 1, lng := 2, display_name := "ok"
                precision := Precision.exact },
         [geoQuery1 "Rua X" "100" "Santa Maria"]) := by
  have h := (geocode_tier_order exLookupHit "Rua X" "100" "Centro" "Santa Maria").2
    (by decide) (by decide) (by decide)
  exact h.2 { lat := 1, lng := 2, display_name := "ok" } (by decide)

/-- C6: when the trimmed city is empty every tier's guard fails, so the
geocoder returns `null` having issued no query at all. -/
theorem geocode_requires_city (lookup : String → Option GeoHit)
    (street number neighborhood city : String)
    (h : (jsTrim city).isEmpty = true) :
    geocodeAddress lookup street number neighborhood city = (none, []) := by
  simp [geocodeAddress, geoStep, h]

/-- A lookup oracle that answers every query, used to show the geocoder
does not consult the service at all without a city. -/
def exLookupAlways : String → Option GeoHit :=
  fun _ => some { lat := 3, lng := 4, display_name := "hit" }

/-- Witness for C6 at a concrete input: with an empty city and an oracle
that would answer anything, the geocoder still returns `null` and issues
no query. -/
theorem geocode_requires_city_witness :
    geocodeAddress exLookupAlways "Rua X" "100" "Centro" "" = (none, []) :=
  geocode_requires_city exLookupAlways "Rua X" "100" "Centro" "" (by decide)

/-- A coordinate pair that is absent (`undefined`) in either component, or
has a zero component, is falsy under JS truthiness, so the `lat && lng`
guard rejects it. -/
theorem jsCoordPair_absent (la ln : Option ℚ)
    (h : la = some 0 ∨ ln = some 0 ∨ la = none ∨ ln = none) :
    jsCoordPair la ln = none := by
  rcases la with _ | a
  · rfl
  rcases ln with _ | b
  · rfl
  have hab : a = 0 ∨ b = 0 := by
    rcases h with h | h | h | h
    · exact Or.inl (by injection h)
    · exact Or.inr (by injection h)
    · exact absurd h (by simp)
    · exact absurd h (by simp)
  simp only [jsCoordPair]
  rw [if_neg (by tauto)]

/-- `getPickupCoords` from `CourierView.tsx` lines 234-237: the stored
pickup coordinates when both are truthy, otherwise the deterministic
id-hash coordinate around the courier location. -/
def getPickupCoords (req : DeliveryRequest) (userLocation : ℚ × ℚ) : ℚ × ℚ :=
  match jsCoordPair req.pickupLat req.pickupLng with
  | some c => c
  | none => getCoordinates req.id userLocation.1 userLocation.2

/-- `getDropoffCoords` from `CourierView.tsx` lines 239-244: the stored
dropoff coordinates when both are truthy, otherwise the pickup coordinate
shifted by `+0.01` in each component. -/
def getDropoffCoords (req : DeliveryRequest) (userLocation : ℚ × ℚ) : ℚ × ℚ :=
  match jsCoordPair req.dropoffLat req.dropoffLng with
  | some c => c
  | none =>
    let pickup := getPickupCoords req userLocation
    (pickup.1 + 1 / 100, pickup.2 + 1 / 100)

/-- `getTargetCoordinates` from `CourierView.tsx` lines 212-231: the
navigation target is the dropoff coordinate when the status is PICKED_UP
or ARRIVED_DESTINATION, the pickup coordinate otherwise, in each case
falling back to the id-hash coordinate (dropoff side shifted by `+0.01`)
when the stored pair is falsy.  The `isNum(userLocation)` guard of the
source is vacuous over rationals. -/
def getTargetCoordinates (req : DeliveryRequest) (userLocation : ℚ × ℚ) : ℚ × ℚ :=
  if req.status = DeliveryStatus.PICKED_UP
      ∨ req.status = DeliveryStatus.ARRIVED_DESTINATION then
    match jsCoordPair req.dropoffLat req.dropoffLng with
    | some c => c
    | none =>
      let c := getCoordinates req.id userLocation.1 userLocation.2
      (c.1 + 1 / 100, c.2 + 1 / 100)
  else
    match jsCoordPair req.pickupLat req.pickupLng with
    | some c => c
    | none => getCoordinates req.id userLocation.1 userLocation.2

/-- Pickup coordinate selection of the `CustomerView` tracking effect
lines 259-264: the stored pair when truthy, else the user location
shifted by `-0.005` in each component. -/
def trackingPickup (req : DeliveryRequest) (userLocation : ℚ × ℚ) : ℚ × ℚ :=
  match jsCoordPair req.pickupLat req.pickupLng with
  | some c => c
  | none => (userLocation.1 - 5 / 1000, userLocation.2 - 5 / 1000)

/-- Dropoff coordinate selection of the `CustomerView` tracking effect
lines 260-268: the stored pair when truthy, else the user location
shifted by `+0.005` in each component. -/
def trackingDropoff (req : DeliveryRequest) (userLocation : ℚ × ℚ) : ℚ × ℚ :=
  match jsCoordPair req.dropoffLat req.dropoffLng with
  | some c => c
  | none => (userLocation.1 + 5 / 1000, userLocation.2 + 5 / 1000)

/-- The simulated courier leg of the `CustomerView` tracking effect lines
292-297: `startPos` defaults to the pickup shifted by `-0.01` and `endPos`
to the pickup; ACCEPTED keeps those defaults, PICKED_UP gives
pickup→dropoff, ARRIVED_DESTINATION gives dropoff→dropoff. -/
def trackingLeg (pickup dropoff : ℚ × ℚ) (status : DeliveryStatus) :
    (ℚ × ℚ) × (ℚ × ℚ) :=
  match status with
  | DeliveryStatus.PICKED_UP => (pickup, dropoff)
  | DeliveryStatus.ARRIVED_DESTINATION => (dropoff, dropoff)
  | _ => ((pickup.1 - 1 / 100, pickup.2 - 1 / 100), pickup)

/-- C7, counterexample: at status ARRIVED_DESTINATION with pickup (1,2)
and dropoff (3,4), the simulated leg is (dropoff → dropoff), not
(pickup → dropoff): its start point is the dropoff, not the pickup. -/
theorem arrived_leg_not_pickup :
    (trackingLeg (1, 2) (3, 4) DeliveryStatus.ARRIVED_DESTINATION).1 = (3, 4)
    ∧ ((3, 4) : ℚ × ℚ) ≠ (1, 2)
    ∧ trackingLeg (1, 2) (3, 4) DeliveryStatus.ARRIVED_DESTINATION
        ≠ ((1, 2), (3, 4)) :=
  ⟨rfl, by decide, by decide⟩

/-- C7, amended: at status PICKED_UP the simulated leg is
(pickup → dropoff); at status ARRIVED_DESTINATION it is
(dropoff → dropoff), holding the marker at the dropoff; in both statuses
the navigation target is the dropoff coordinate whenever the stored
dropoff pair is truthy. -/
theorem leg_after_pickup (p d : ℚ × ℚ) (req : DeliveryRequest) (u c : ℚ × ℚ) :
    trackingLeg p d DeliveryStatus.PICKED_UP = (p, d)
    ∧ trackingLeg p d DeliveryStatus.ARRIVED_DESTINATION = (d, d)
    ∧ ((req.status = DeliveryStatus.PICKED_UP
          ∨ req.status = DeliveryStatus.ARRIVED_DESTINATION) →
        jsCoordPair req.dropoffLat req.dropoffLng = some c →
        getTargetCoordinates req u = c) := by
  refine ⟨rfl, rfl, ?_⟩
  intro hs hc
  unfold getTargetCoordinates
  rw [if_pos hs, hc]

/-- A picked-up request with stored dropoff coordinates, used as a
concrete input below. -/
def exReqPicked : DeliveryRequest :=
  { exReqDelivered with
    id := "r7", status := DeliveryStatus.PICKED_UP,
    dropoffLat := some 3, dropoffLng := some 4 }

/-- Witness for C7 at a concrete input: for a PICKED_UP request with
stored dropoff (3,4), the navigation target is (3,4). -/
theorem leg_after_pickup_witness :
    getTargetCoordinates exReqPicked (0, 0) = (3, 4) :=
  (leg_after_pickup (0, 0) (0, 0) exReqPicked (0, 0) (3, 4)).2.2
    (Or.inl rfl) (by decide)

/-- A request whose stored dropoff coordinates are exactly 0 while its
pickup coordinates are real, used as a concrete input below. -/
def exReqZeroDrop : DeliveryRequest :=
  { exReqDelivered with
    id := "1", status := DeliveryStatus.PICKED_UP,
    pickupLat := some 10, pickupLng := some 20,
    dropoffLat := some 0, dropoffLng := some 0 }

/-- C10, counterexample: for a request whose stored dropoff coordinates
are exactly 0, the dropoff accessor does treat them as absent (the result
is not the stored (0,0)), but it substitutes the pickup coordinate
shifted by +0.01 — not the deterministic id-hash fallback coordinate. -/
theorem zero_dropoff_not_idhash :
    exReqZeroDrop.dropoffLat = some 0
    ∧ getDropoffCoords exReqZeroDrop (3, 7) = (10 + 1 / 100, 20 + 1 / 100)
    ∧ getDropoffCoords exReqZeroDrop (3, 7)
        ≠ getCoordinates exReqZeroDrop.id 3 7
    ∧ getDropoffCoords exReqZeroDrop (3, 7) ≠ (0, 0) := by
  have hz : jsCoordPair exReqZeroDrop.dropoffLat exReqZeroDrop.dropoffLng = none := by
    simp [exReqZeroDrop, exReqDelivered, jsCoordPair]
  have hpair : jsCoordPair exReqZeroDrop.pickupLat exReqZeroDrop.pickupLng
      = some (10, 20) := by
    norm_num [jsCoordPair, exReqZeroDrop, exReqDelivered]
  have hp : getPickupCoords exReqZeroDrop (3, 7) = (10, 20) := by
    unfold getPickupCoords
    rw [hpair]
  have hd : getDropoffCoords exReqZeroDrop (3, 7) = (10 + 1 / 100, 20 + 1 / 100) := by
    unfold getDropoffCoords
    rw [hz]
    show ((getPickupCoords exReqZeroDrop (3, 7)).1 + 1 / 100,
      (getPickupCoords exReqZeroDrop (3, 7)).2 + 1 / 100) = _
    rw [hp]
  have hhash :
      ((if exReqZeroDrop.id = "" then "default" else exReqZeroDrop.id).data.map
        Char.toNat).sum = 49 := by decide
  have hc : getCoordinates exReqZeroDrop.id 3 7
      = (3 - 1 / 2500, 7 - 13 / 2500) := by
    simp only [getCoordinates, hhash]
    rw [Prod.ext_iff]
    norm_num
  refine ⟨rfl, hd, ?_, ?_⟩
  · rw [hd, hc]
    intro hEq
    rw [Prod.ext_iff] at hEq
    have h1 := hEq.1
    norm_num at h1
  · rw [hd]
    intro hEq
    rw [Prod.ext_iff] at hEq
    have h1 := hEq.1
    norm_num at h1

/-- C10, amended: a stored coordinate equal to exactly 0 is treated as
absent (the presence check is JS truthiness, not an undefined check), and
the accessors substitute a deterministic fallback instead of the stored
value: the id-hash coordinate for the courier pickup accessor, the pickup
coordinate shifted by +0.01 for the courier dropoff accessor, and fixed
∓0.005 offsets from the user location for the customer tracking view. -/
theorem zero_coordinate_fallback (req : DeliveryRequest) (u : ℚ × ℚ) :
    ((req.pickupLat = some 0 ∨ req.pickupLng = some 0) →
        getPickupCoords req u = getCoordinates req.id u.1 u.2
        ∧ trackingPickup req u = (u.1 - 5 / 1000, u.2 - 5 / 1000))
    ∧ ((req.dropoffLat = some 0 ∨ req.dropoffLng = some 0) →
        getDropoffCoords req u
          = ((getPickupCoords req u).1 + 1 / 100,
             (getPickupCoords req u).2 + 1 / 100)
        ∧ trackingDropoff req u = (u.1 + 5 / 1000, u.2 + 5 / 1000)) := by
  constructor
  · intro h
    have hz := jsCoordPair_absent req.pickupLat req.pickupLng (by tauto)
    constructor <;> simp [getPickupCoords, trackingPickup, hz]
  · intro h
    have hz := jsCoordPair_absent req.dropoffLat req.dropoffLng (by tauto)
    constructor <;> simp [getDropoffCoords, trackingDropoff, hz]

/-- A request whose stored pickup latitude is exactly 0, used as a
concrete input below. -/
def exReqZeroPick : DeliveryRequest :=
  { exReqDelivered with id := "z", pickupLat := some 0, pickupLng := some 5 }

/-- Witness for C10 at a concrete input: a request with pickup latitude
stored as 0 gets the id-hash fallback coordinate from the pickup
accessor. -/
theorem zero_coordinate_fallback_witness :
    getPickupCoords exReqZeroPick (0, 0) = getCoordinates "z" 0 0 :=
  ((zero_coordinate_fallback exReqZeroPick (0, 0)).1 (Or.inl rfl)).1
